import Mathlib

/-!
Verification of the multi-tenant authentication gateway (FastAPI + Firebase
Identity Platform) against its natural-language specification.

The development shallowly embeds the three core components:

* `AuthMw` — the request authenticator (`app/middleware/auth_middleware.py`,
  `AuthMiddleware.dispatch`);
* `Db` — the tenant session manager (`app/database.py`,
  `SessionManager.get_session`);
* `Onb` — the onboarding orchestrator (`app/routers/onboarding.py`,
  `register_company`).

External collaborators (the identity-provider SDK, the SQL engine) are
modelled as explicit behaviour parameters; each embedded function returns the
trace of collaborator calls it performed together with its outcome, so that
ordering and never-invoked properties can be stated about the trace.
-/

namespace Gateway

/-- Exceptions, identified by enough structure to distinguish the cases the
code branches on.  `external` stands for an arbitrary exception raised by a
collaborator (the identity provider or the database driver); its string is
the message `str(e)` would render. -/
inductive Exc where
  | valueError (msg : String)
  | httpException (statusCode : Nat) (detail : String)
  | external (msg : String)
  deriving DecidableEq, Repr

/-- Python `str(e)` on one of our modelled exceptions. -/
def Exc.message : Exc → String
  | .valueError m => m
  | .httpException _ d => d
  | .external m => m

/-- Outcome of a Python computation: a returned value or a raised exception. -/
inductive Outcome (α : Type) where
  | ok (v : α)
  | err (e : Exc)
  deriving DecidableEq, Repr

namespace AuthMw

/-- Decoded claims of a verified ID token, restricted to the fields the
middleware reads.  `firebaseTenant` is `decoded_token.get("firebase", {}).get("tenant")`:
`none` models an absent claim, `some ""` a present-but-empty one (both falsy
in Python). -/
structure DecodedToken where
  firebaseTenant : Option String
  uid : Option String
  email : Option String
  deriving DecidableEq, Repr

/-- Behaviour of `auth.verify_id_token` for one token: success with decoded
claims, or one of the exception classes the middleware catches. -/
inductive VerifyResult where
  | ok (d : DecodedToken)
  | invalidIdToken (msg : String)
  | expiredIdToken (msg : String)
  | otherFailure (msg : String)
  deriving DecidableEq, Repr

/-- An inbound HTTP request as the middleware sees it: the URL path and the
`Authorization` header (`none` when the header is absent). -/
structure Request where
  path : String
  authorization : Option String
  deriving DecidableEq, Repr

/-- Observable actions of `dispatch`: reading the `Authorization` header,
calling `auth.verify_id_token`, and forwarding to the downstream handler. -/
inductive MwEvent where
  | readAuthHeader
  | verifyIdToken (token : String)
  | callNext
  deriving DecidableEq, Repr

/-- The request-scoped state attached on successful authentication
(`request.state.tenant_id` / `user_id` / `user_email`). -/
structure Principal where
  tenant_id : String
  user_id : Option String
  user_email : Option String
  deriving DecidableEq, Repr

/-- The middleware's result: the downstream handler's response (with the
principal attached for authenticated requests, nothing for exempt ones), or
a JSON error response with a status code and a `detail` string. -/
inductive MwResponse where
  | forwarded (principal : Option Principal)
  | jsonResponse (statusCode : Nat) (detail : String)
  deriving DecidableEq, Repr

/-- The characters Python's `str.split()` (no separator) splits on, in their
ASCII range. -/
def isPySpace (c : Char) : Bool :=
  c = ' ' || c = '\t' || c = '\n' || c = '\x0d' || c = '\x0b' || c = '\x0c'

/-- Tokenizer behind `pySplit`, accumulating the current (reversed) token. -/
def pySplitAux : List Char → List Char → List String
  | [], acc => if acc = [] then [] else [String.mk acc.reverse]
  | c :: cs, acc =>
      if isPySpace c then
        if acc = [] then pySplitAux cs []
        else String.mk acc.reverse :: pySplitAux cs []
      else pySplitAux cs (c :: acc)

/-- Python `s.split()`: split on runs of whitespace, discarding empty
pieces. -/
def pySplit (s : String) : List String :=
  pySplitAux s.data []

/-- Prefix test on character lists: does `s` start with `p`? -/
def startsWithL : List Char → List Char → Bool
  | _, [] => true
  | [], _ :: _ => false
  | c :: s, d :: p => c = d && startsWithL s p

/-- Python `s.startswith(p)`, computed on the underlying characters. -/
def pyStartsWith (s p : String) : Bool :=
  startsWithL s.data p.data

/-- Python `s.lower()`, computed character by character (all strings the
code lowercases are ASCII). -/
def pyLower (s : String) : String :=
  String.mk (s.data.map Char.toLower)

/-- The header-shape check `len(parts) == 2 and parts[0].lower() == "bearer"`
on the split `Authorization` header. -/
def authHeaderOk (a : String) : Bool :=
  (pySplit a).length == 2 && pyLower ((pySplit a).headD "") == "bearer"

/-- The bearer token, `parts[1]` of the split `Authorization` header. -/
def tokenOf (a : String) : String :=
  (pySplit a).getD 1 ""

/-- The hard-coded `excluded_paths` list of `AuthMiddleware.dispatch`. -/
def excludedPaths : List String :=
  ["/health", "/docs", "/openapi.json", "/redoc", "/onboarding"]

/-- The effective exclusion list for one request: the code appends the
request's own path when it starts with `/public`. -/
def effectiveExcluded (path : String) : List String :=
  if pyStartsWith path "/public" then excludedPaths ++ [path] else excludedPaths

/-- The exemption test: `any(request.url.path.startswith(p) for p in excluded_paths)`. -/
def isExempt (path : String) : Bool :=
  (effectiveExcluded path).any (fun p => pyStartsWith path p)

/-- Embedding of `AuthMiddleware.dispatch`.  `verify` is the behaviour of
`auth.verify_id_token`; the result is the trace of observable actions and
the response. -/
def dispatch (verify : String → VerifyResult) (req : Request) :
    List MwEvent × MwResponse :=
  if isExempt req.path then
    ([MwEvent.callNext], MwResponse.forwarded none)
  else
    -- authorization = request.headers.get("Authorization"); if not authorization: 401
    match req.authorization with
    | none =>
        ([MwEvent.readAuthHeader],
         MwResponse.jsonResponse 401 "Token de autenticación no proporcionado")
    | some authorization =>
        if authorization = "" then
          ([MwEvent.readAuthHeader],
           MwResponse.jsonResponse 401 "Token de autenticación no proporcionado")
        else
          if authHeaderOk authorization then
            let token := tokenOf authorization
            match verify token with
            | VerifyResult.ok decoded =>
                -- tenant_id = decoded_token.get("firebase", {}).get("tenant")
                let tenant_id := decoded.firebaseTenant
                if tenant_id = none ∨ tenant_id = some "" then
                  ([MwEvent.readAuthHeader, MwEvent.verifyIdToken token],
                   MwResponse.jsonResponse 403 "Token no asociado a un tenant")
                else
                  ([MwEvent.readAuthHeader, MwEvent.verifyIdToken token,
                    MwEvent.callNext],
                   MwResponse.forwarded (some
                     { tenant_id := tenant_id.getD ""
                       user_id := decoded.uid
                       user_email := decoded.email }))
            | VerifyResult.invalidIdToken _ =>
                ([MwEvent.readAuthHeader, MwEvent.verifyIdToken token],
                 MwResponse.jsonResponse 401 "Token de autenticación inválido")
            | VerifyResult.expiredIdToken _ =>
                ([MwEvent.readAuthHeader, MwEvent.verifyIdToken token],
                 MwResponse.jsonResponse 401 "Token de autenticación expirado")
            | VerifyResult.otherFailure _ =>
                ([MwEvent.readAuthHeader, MwEvent.verifyIdToken token],
                 MwResponse.jsonResponse 500 "Error interno al verificar autenticación")
          else
            ([MwEvent.readAuthHeader],
             MwResponse.jsonResponse 401 "Formato de token inválido. Use: Bearer <token>")

end AuthMw

namespace Db

/-- Observable database-session actions of `SessionManager.get_session`:
acquiring a pooled session (`async with AsyncSessionLocal() as session`),
the parameterized `SET LOCAL <rls_setting_name> = :tenant_id` statement, the
commit, the rollback, the `RESET <rls_setting_name>` statement, and the
release of the session when the `async with` block exits. -/
inductive DbEvent where
  | acquireSession
  | setTenant (tenant_id : String)
  | commit
  | rollback
  | reset
  | releaseSession
  deriving DecidableEq, Repr

/-- Failure behaviour of the database statements that `get_session` itself
issues: for each of them, `none` means the statement succeeds and `some e`
means it raises `e`. -/
structure DbEnv where
  setExc : Option Exc
  commitExc : Option Exc
  rollbackExc : Option Exc
  resetExc : Option Exc
  deriving DecidableEq, Repr

/-- A database environment in which every statement succeeds. -/
def DbEnv.allOk : DbEnv :=
  { setExc := none, commitExc := none, rollbackExc := none, resetExc := none }

/-- The `ValueError` message raised when no tenant id is set. -/
def tenantRequiredMsg : String :=
  "No se ha establecido un tenant_id. Asegúrate de que el middleware de autenticación lo haya configurado."

/-- Embedding of `SessionManager.get_session` used as
`async with SessionManager(tenant_id=tenantId).get_session() as db: <body>`.

The body is given by the trace of events it performs when it runs
(`bodyTrace`, injected into the caller's event alphabet by `inj` like the
session's own events) and its outcome (`bodyRes`).  Per Python semantics:

* `if not self.tenant_id` — `none` and `some ""` are both falsy — raises
  `ValueError` before any session is acquired;
* the `SET` statement runs before the `try`, so if it raises, the session is
  released and neither commit, rollback nor reset is attempted;
* the `try` block is `yield` then `commit`, so a commit failure is caught by
  the same `except` as a body failure and triggers the rollback;
* a rollback failure replaces the exception being handled;
* the `finally` runs the `RESET` statement, and if that raises, the raised
  exception replaces whatever outcome (return value or exception) was
  pending. -/
def get_session {ε α : Type} (inj : DbEvent → ε) (env : DbEnv)
    (tenantId : Option String) (bodyTrace : List ε) (bodyRes : Outcome α) :
    List ε × Outcome α :=
  if tenantId = none ∨ tenantId = some "" then
    ([], Outcome.err (Exc.valueError tenantRequiredMsg))
  else
    let t := tenantId.getD ""
    let pre := [inj DbEvent.acquireSession, inj (DbEvent.setTenant t)]
    match env.setExc with
    | some e => (pre ++ [inj DbEvent.releaseSession], Outcome.err e)
    | none =>
        -- try: yield session; await session.commit()
        let tryStep : List ε × Outcome α :=
          match bodyRes with
          | Outcome.ok v =>
              match env.commitExc with
              | none => (bodyTrace ++ [inj DbEvent.commit], Outcome.ok v)
              | some e => (bodyTrace ++ [inj DbEvent.commit], Outcome.err e)
          | Outcome.err e => (bodyTrace, Outcome.err e)
        -- except Exception: await session.rollback(); raise
        let excStep : List ε × Outcome α :=
          match tryStep.2 with
          | Outcome.ok v => ([], Outcome.ok v)
          | Outcome.err e =>
              match env.rollbackExc with
              | none => ([inj DbEvent.rollback], Outcome.err e)
              | some e2 => ([inj DbEvent.rollback], Outcome.err e2)
        -- finally: await session.execute(text(f"RESET {settings.rls_setting_name}"))
        let finStep : List ε × Outcome α :=
          match env.resetExc with
          | none => ([inj DbEvent.reset], excStep.2)
          | some e3 => ([inj DbEvent.reset], Outcome.err e3)
        (pre ++ tryStep.1 ++ excStep.1 ++ finStep.1 ++ [inj DbEvent.releaseSession],
         finStep.2)

/-- The session manager run with the plain `DbEvent` alphabet and an opaque
body, for claims about `get_session` itself. -/
def get_sessionD {α : Type} (env : DbEnv) (tenantId : Option String)
    (bodyRes : Outcome α) : List DbEvent × Outcome α :=
  get_session (fun e => e) env tenantId [] bodyRes

end Db

namespace Onb

/-- The admin-user part of the onboarding request body. -/
structure AdminUserData where
  email : String
  password : String
  display_name : Option String
  deriving DecidableEq, Repr

/-- The onboarding request body (`OnboardingRequest`). -/
structure OnboardingRequest where
  company_name : String
  company_display_name : Option String
  company_description : Option String
  admin_user : AdminUserData
  deriving DecidableEq, Repr

/-- The success payload (`OnboardingResponse`). -/
structure OnboardingResponse where
  tenant_id : String
  company_id : String
  admin_user_id : String
  message : String
  deriving DecidableEq, Repr

/-- Observable actions of `register_company`: the three identity-provider
calls, session-manager events (tagged `session`), and the database work done
inside session bodies — the step-2 `db.add` + `db.flush`, and the
compensation path's `select` and row `delete` + `commit`. -/
inductive OEv where
  | idpCreateTenant (displayName : String)
  | idpDeleteTenant (tenant_id : String)
  | idpCreateUser (email : String) (tenant_id : String)
  | session (e : Db.DbEvent)
  | dbAddFlush (tenant_id : String)
  | dbSelectCompany (tenant_id : String)
  | dbDeleteRow (tenant_id : String)
  deriving DecidableEq, Repr

/-- Behaviour of the collaborators during one `register_company` run:
`createTenantRes` is `auth.create_tenant` (returning the new tenant id),
`step2Db` drives the step-2 session's own statements, `insertExc` is the
`db.add`/`db.flush` pair inside it, `createUserRes` is `auth.create_user`
(returning the uid), `compDb`/`compSelectExc`/`compFound`/`compDeleteExc`
drive the step-3 compensation session (its statements, the `select`, whether
the company row is found, and the row `delete`+`commit`), and
`deleteTenantExc` is the behaviour of any `auth.delete_tenant` call. -/
structure OnbEnv where
  createTenantRes : Outcome String
  step2Db : Db.DbEnv
  insertExc : Option Exc
  createUserRes : Outcome String
  compDb : Db.DbEnv
  compSelectExc : Option Exc
  compFound : Bool
  compDeleteExc : Option Exc
  deleteTenantExc : Option Exc
  deriving DecidableEq, Repr

/-- Result of the endpoint: the 201 success payload or an `HTTPException`
turned into an error response with status code and `detail`. -/
inductive OnbResult where
  | success (resp : OnboardingResponse)
  | httpError (statusCode : Nat) (detail : String)
  deriving DecidableEq, Repr

/-- The HTTP status code the client sees: 201 on success
(`status_code=status.HTTP_201_CREATED` on the route), the exception's code
otherwise. -/
def OnbResult.statusCode : OnbResult → Nat
  | OnbResult.success _ => 201
  | OnbResult.httpError s _ => s

/-- The client-visible `detail` string of an error response, `none` on
success. -/
def OnbResult.detail : OnbResult → Option String
  | OnbResult.success _ => none
  | OnbResult.httpError _ d => some d

/-- Python `request_data.company_display_name or request_data.company_name`:
`None` and the empty string are both falsy. -/
def displayNameOf (req : OnboardingRequest) : String :=
  match req.company_display_name with
  | some d => if d = "" then req.company_name else d
  | none => req.company_name

/-- Outcome of the step-2 session body (`db.add(new_company)` followed by
`await db.flush()`; on success `company_id = new_company.tenant_id`). -/
def step2BodyRes (env : OnbEnv) (tid : String) : Outcome String :=
  match env.insertExc with
  | none => Outcome.ok tid
  | some e => Outcome.err e

/-- The step-2 `SessionManager(tenant_id).get_session()` block: its event
trace and outcome. -/
def step2SessionOf (env : OnbEnv) (tid : String) : List OEv × Outcome String :=
  Db.get_session OEv.session env.step2Db (some tid)
    [OEv.dbAddFlush tid] (step2BodyRes env tid)

/-- Body of the step-3 compensation session: `select` the company row by
tenant id, and if one is found, `delete` it and `commit`. -/
def compBodyOf (env : OnbEnv) (tid : String) : List OEv × Outcome Unit :=
  match env.compSelectExc with
  | some se => ([OEv.dbSelectCompany tid], Outcome.err se)
  | none =>
      if env.compFound then
        match env.compDeleteExc with
        | some de =>
            ([OEv.dbSelectCompany tid, OEv.dbDeleteRow tid], Outcome.err de)
        | none =>
            ([OEv.dbSelectCompany tid, OEv.dbDeleteRow tid], Outcome.ok ())
      else ([OEv.dbSelectCompany tid], Outcome.ok ())

/-- The step-3 compensation `SessionManager(tenant_id).get_session()` block:
its event trace and outcome. -/
def compSessionOf (env : OnbEnv) (tid : String) : List OEv × Outcome Unit :=
  Db.get_session OEv.session env.compDb (some tid)
    (compBodyOf env tid).1 (compBodyOf env tid).2

/-- Embedding of the `register_company` endpoint.

Step 1 calls `auth.create_tenant`; on failure it raises HTTP 500 with the
exception message echoed in the detail.  Step 2 opens a
`SessionManager(tenant_id).get_session()` whose body adds and flushes the
company row (`company_id = new_company.tenant_id`); on any failure of that
block, `auth.delete_tenant` is attempted (exception logged and swallowed)
when `tenant_id` is truthy, then HTTP 500 is raised with the message echoed.
Step 3 calls `auth.create_user`; on failure, one `try` block first opens a
fresh session that selects the company row and, if found, deletes it and
commits, and then calls `auth.delete_tenant` — so the tenant deletion runs
only when the row-deletion session completed without raising; any exception
of that block is logged and swallowed, and HTTP 500 is raised with the
step-3 message.  On success the endpoint returns the response model, served
with status 201.

The function returns the trace of collaborator actions and the result.  The
final `except Exception` safety net of the source (generic 500 plus a
best-effort tenant delete) is unreachable here: every failure path above
already raises `HTTPException`, which the outer handler re-raises
unchanged. -/
def register_company (env : OnbEnv) (req : OnboardingRequest) :
    List OEv × OnbResult :=
  -- Paso 1: auth.create_tenant(display_name=...)
  let t1 := [OEv.idpCreateTenant (displayNameOf req)]
  match env.createTenantRes with
  | Outcome.err e =>
      (t1, OnbResult.httpError 500
        ("Error al crear tenant en Identity Platform: " ++ e.message))
  | Outcome.ok tenant_id =>
      -- Paso 2: async with SessionManager(tenant_id).get_session() as db: add; flush
      let s2 := step2SessionOf env tenant_id
      match s2.2 with
      | Outcome.err e =>
          -- if tenant_id: try: auth.delete_tenant(tenant_id) except: log
          let tDel := if tenant_id = "" then [] else [OEv.idpDeleteTenant tenant_id]
          (t1 ++ s2.1 ++ tDel, OnbResult.httpError 500
            ("Error al crear empresa en base de datos: " ++ e.message))
      | Outcome.ok company_id =>
          -- Paso 3: auth.create_user(email=..., tenant_id=tenant_id)
          let t3 := t1 ++ s2.1 ++ [OEv.idpCreateUser req.admin_user.email tenant_id]
          match env.createUserRes with
          | Outcome.ok admin_user_id =>
              (t3, OnbResult.success
                { tenant_id := tenant_id
                  company_id := company_id
                  admin_user_id := admin_user_id
                  message := "Empresa y usuario administrador creados exitosamente" })
          | Outcome.err e =>
              let compTrace : List OEv :=
                if tenant_id = "" then []
                else
                  -- try: (session: select; if found: delete row, commit); delete_tenant
                  -- except Exception as rollback_error: log
                  let cs := compSessionOf env tenant_id
                  match cs.2 with
                  | Outcome.ok _ => cs.1 ++ [OEv.idpDeleteTenant tenant_id]
                  | Outcome.err _ => cs.1
              (t3 ++ compTrace, OnbResult.httpError 500
                ("Error al crear usuario administrador: " ++ e.message))

/-- A concrete onboarding request used by the concrete-input theorems. -/
def sampleReq : OnboardingRequest :=
  { company_name := "Acme"
    company_display_name := none
    company_description := none
    admin_user :=
      { email := "admin@acme.co", password := "secret123", display_name := none } }

end Onb

namespace Db

/-- Every event in a `get_session` trace is either one of the manager's own
session events or one of the body's events. -/
theorem get_session_trace_mem {ε α : Type} (inj : DbEvent → ε) (env : DbEnv)
    (tenantId : Option String) (bodyTrace : List ε) (bodyRes : Outcome α)
    (x : ε) (hx : x ∈ (get_session inj env tenantId bodyTrace bodyRes).1) :
    (∃ d, x = inj d) ∨ x ∈ bodyTrace := by
  rcases env with ⟨se, ce, re, xe⟩
  by_cases h1 : tenantId = none ∨ tenantId = some ""
  · simp [get_session, h1] at hx
  · rcases se with _ | e₁ <;> rcases xe with _ | e₄ <;>
      rcases bodyRes with v | e₀ <;> rcases ce with _ | e₂ <;>
      rcases re with _ | e₃ <;>
      simp [get_session, h1] at hx <;> aesop

/-- A `get_session` run returns a value only when the body returned that
value. -/
theorem get_session_ok {ε α : Type} (inj : DbEvent → ε) (env : DbEnv)
    (tenantId : Option String) (bodyTrace : List ε) (bodyRes : Outcome α)
    (v : α) (h : (get_session inj env tenantId bodyTrace bodyRes).2 = Outcome.ok v) :
    bodyRes = Outcome.ok v := by
  rcases env with ⟨se, ce, re, xe⟩
  by_cases h1 : tenantId = none ∨ tenantId = some ""
  · simp [get_session, h1] at h
  · rcases se with _ | e₁ <;> rcases xe with _ | e₄ <;>
      rcases bodyRes with w | e₀ <;> rcases ce with _ | e₂ <;>
      rcases re with _ | e₃ <;>
      simp_all [get_session, h1]

end Db

namespace AuthMw

/-- Every character list starts with itself. -/
theorem startsWithL_refl (s : List Char) : startsWithL s s = true := by
  induction s with
  | nil => rfl
  | cons c cs ih => simp [startsWithL, ih]

/-- The exemption test is equivalent to a plain six-entry path-prefix
match. -/
theorem isExempt_iff_sixPrefixes (path : String) :
    isExempt path = true ↔
      ((["/health", "/docs", "/openapi.json", "/redoc", "/onboarding", "/public"] :
        List String).any (fun p => pyStartsWith path p)) = true := by
  by_cases hpub : pyStartsWith path "/public" = true
  · constructor
    · intro _
      simp [hpub]
    · intro _
      have hself : pyStartsWith path path = true := startsWithL_refl path.data
      simp [isExempt, effectiveExcluded, excludedPaths, hpub, hself]
  · have hpub' : pyStartsWith path "/public" = false := by
      revert hpub; cases pyStartsWith path "/public" <;> simp
    constructor
    · intro h
      simp only [isExempt, effectiveExcluded, excludedPaths, hpub',
        Bool.false_eq_true, if_false, List.any_cons, List.any_nil,
        Bool.or_eq_true] at h
      simp only [List.any_cons, List.any_nil, Bool.or_eq_true, hpub']
      tauto
    · intro h
      simp only [List.any_cons, List.any_nil, Bool.or_eq_true, hpub',
        Bool.false_eq_true, or_false] at h
      simp only [isExempt, effectiveExcluded, excludedPaths, hpub',
        Bool.false_eq_true, if_false, List.any_cons, List.any_nil,
        Bool.or_eq_true]
      tauto

end AuthMw

end Gateway

open Gateway
open Gateway.AuthMw
open Gateway.Db
open Gateway.Onb

/-- Claim C4: for every tenant id that is `None` or the empty string,
`SessionManager.get_session` fails immediately with the tenant-required
`ValueError` before any database session is acquired and before any
statement is executed — the event trace is empty, so no partial resource
acquisition occurs.  This holds for every statement behaviour and every
body. -/
theorem C4_tenant_required {ε α : Type} (inj : DbEvent → ε) (env : DbEnv)
    (tenantId : Option String) (bodyTrace : List ε) (bodyRes : Outcome α)
    (h : tenantId = none ∨ tenantId = some "") :
    get_session inj env tenantId bodyTrace bodyRes =
      ([], Outcome.err (Exc.valueError tenantRequiredMsg)) := by
  unfold get_session
  rcases h with h | h <;> simp [h]

/-- Witness for C4 at the concrete input `tenantId = none`. -/
theorem C4_tenant_required_witness :
    get_session (fun e => e) DbEnv.allOk (none : Option String) ([] : List DbEvent)
      (Outcome.ok (0 : Nat)) = ([], Outcome.err (Exc.valueError tenantRequiredMsg)) :=
  C4_tenant_required (fun e => e) DbEnv.allOk none [] (Outcome.ok 0) (Or.inl rfl)

/-- Claim C3: for every non-empty tenant id `t` and every body, when the
session's own statements behave normally, `get_session` first acquires the
session and executes the parameterized `SET` statement binding `t`, then
runs the body; if the body returns normally the transaction is committed and
the value returned, and if the body raises, the transaction is rolled back —
never committed — and the original exception is re-raised unchanged; on both
paths the `RESET` statement is executed after the commit/rollback and before
the session is released. -/
theorem C3_set_commit_rollback_reset {α : Type} (t : String)
    (bodyTrace : List DbEvent) (bodyRes : Outcome α) (ht : t ≠ "") :
    (∀ v, bodyRes = Outcome.ok v →
      get_session (fun e => e) DbEnv.allOk (some t) bodyTrace bodyRes =
        ([DbEvent.acquireSession, DbEvent.setTenant t] ++ bodyTrace ++
          [DbEvent.commit, DbEvent.reset, DbEvent.releaseSession],
         Outcome.ok v)) ∧
    (∀ e, bodyRes = Outcome.err e →
      get_session (fun e => e) DbEnv.allOk (some t) bodyTrace bodyRes =
        ([DbEvent.acquireSession, DbEvent.setTenant t] ++ bodyTrace ++
          [DbEvent.rollback, DbEvent.reset, DbEvent.releaseSession],
         Outcome.err e) ∧
      (DbEvent.commit ∉ bodyTrace →
        DbEvent.commit ∉
          (get_session (fun e => e) DbEnv.allOk (some t) bodyTrace bodyRes).1)) := by
  constructor
  · intro v hv
    subst hv
    simp [get_session, DbEnv.allOk, ht]
  · intro e he
    subst he
    constructor
    · simp [get_session, DbEnv.allOk, ht]
    · intro hnc
      simp [get_session, DbEnv.allOk, ht, hnc]

/-- Witness for C3 at a concrete tenant and both body outcomes. -/
theorem C3_set_commit_rollback_reset_witness :
    get_session (fun e => e) DbEnv.allOk (some "tenant-123") ([] : List DbEvent)
        (Outcome.ok (7 : Nat)) =
      ([DbEvent.acquireSession, DbEvent.setTenant "tenant-123", DbEvent.commit,
        DbEvent.reset, DbEvent.releaseSession], Outcome.ok 7) ∧
    get_session (fun e => e) DbEnv.allOk (some "tenant-123") ([] : List DbEvent)
        (Outcome.err (Exc.external "body boom") : Outcome Nat) =
      ([DbEvent.acquireSession, DbEvent.setTenant "tenant-123", DbEvent.rollback,
        DbEvent.reset, DbEvent.releaseSession], Outcome.err (Exc.external "body boom")) := by
  constructor
  · exact (C3_set_commit_rollback_reset "tenant-123" [] (Outcome.ok 7)
      (by decide)).1 7 rfl
  · exact ((C3_set_commit_rollback_reset "tenant-123" []
      (Outcome.err (Exc.external "body boom")) (by decide)).2
      (Exc.external "body boom") rfl).1

/-- Counterexample to claim C2: when the `RESET` statement itself raises,
the raised exception replaces the body's outcome — the returned value is
lost and a body exception is masked — because the `finally` block executes
the statement unguarded.  Both runs below end in the reset failure instead
of the body's outcome. -/
theorem C2_counterexample :
    (get_sessionD { setExc := none, commitExc := none, rollbackExc := none,
                    resetExc := some (Exc.external "reset failed") }
      (some "tenant-123") (Outcome.ok (42 : Nat))).2 =
        Outcome.err (Exc.external "reset failed") ∧
    (get_sessionD { setExc := none, commitExc := none, rollbackExc := none,
                    resetExc := some (Exc.external "reset failed") }
      (some "tenant-123") (Outcome.ok (42 : Nat))).2 ≠ Outcome.ok 42 ∧
    (get_sessionD { setExc := none, commitExc := none, rollbackExc := none,
                    resetExc := some (Exc.external "reset failed") }
      (some "tenant-123") (Outcome.err (Exc.external "body failed") : Outcome Nat)).2 =
        Outcome.err (Exc.external "reset failed") := by
  decide

/-- Claim C2 as amended: for every non-empty tenant id and every body, with
the session's other statements succeeding, the body's outcome is preserved
exactly when the `RESET` statement succeeds; when the `RESET` statement
raises, the reset exception replaces the body's original outcome (the code
does not guard the `finally` block, so a reset failure does mask the body's
outcome). -/
theorem C2_reset_behaviour {α : Type} (env : DbEnv) (t : String)
    (bodyRes : Outcome α) (ht : t ≠ "") (hset : env.setExc = none)
    (hcommit : env.commitExc = none) (hrollback : env.rollbackExc = none) :
    (env.resetExc = none → (get_sessionD env (some t) bodyRes).2 = bodyRes) ∧
    (∀ e, env.resetExc = some e →
      (get_sessionD env (some t) bodyRes).2 = Outcome.err e) := by
  rcases env with ⟨se, ce, re, xe⟩
  simp only at hset hcommit hrollback
  subst hset hcommit hrollback
  constructor
  · intro hr
    simp only at hr
    subst hr
    rcases bodyRes with v | e <;> simp [get_sessionD, get_session, ht]
  · intro e hr
    simp only at hr
    subst hr
    rcases bodyRes with v | e' <;> simp [get_sessionD, get_session, ht]

/-- Witness for the amended C2 at a concrete tenant, body and reset
failure. -/
theorem C2_reset_behaviour_witness :
    (get_sessionD { setExc := none, commitExc := none, rollbackExc := none,
                    resetExc := some (Exc.external "reset boom") }
      (some "t1") (Outcome.ok (5 : Nat))).2 = Outcome.err (Exc.external "reset boom") :=
  (C2_reset_behaviour { setExc := none, commitExc := none, rollbackExc := none,
                        resetExc := some (Exc.external "reset boom") } "t1" (Outcome.ok 5)
    (by decide) rfl rfl rfl).2 (Exc.external "reset boom") rfl


/-- Claim C10: exemption from authentication is decided by path-prefix
matching — every request whose path merely begins with one of the six
strings is forwarded straight to the downstream handler, with a trace
showing the `Authorization` header was never read and no verification was
attempted. -/
theorem C10_prefix_exemption (verify : String → VerifyResult) (req : Request)
    (h : ((["/health", "/docs", "/openapi.json", "/redoc", "/onboarding", "/public"] :
      List String).any (fun p => pyStartsWith req.path p)) = true) :
    dispatch verify req = ([MwEvent.callNext], MwResponse.forwarded none) ∧
    MwEvent.readAuthHeader ∉ (dispatch verify req).1 := by
  have hx : isExempt req.path = true := (isExempt_iff_sixPrefixes req.path).2 h
  constructor
  · simp [dispatch, hx]
  · simp [dispatch, hx]

/-- Witness for C10 at the path `/healthz`, which is not an exempt endpoint
itself but begins with `/health`. -/
theorem C10_prefix_exemption_witness :
    dispatch (fun _ => VerifyResult.invalidIdToken "bad")
        { path := "/healthz", authorization := none } =
      ([MwEvent.callNext], MwResponse.forwarded none) :=
  (C10_prefix_exemption (fun _ => VerifyResult.invalidIdToken "bad")
    { path := "/healthz", authorization := none } (by decide)).1

/-- Claim C5: for every request to a non-exempt path whose `Authorization`
header is absent, or present but not exactly two whitespace-separated
tokens with the first case-insensitively equal to `bearer`, the middleware
responds 401 and neither invokes the downstream handler nor attempts token
verification. -/
theorem C5_malformed_auth_rejected (verify : String → VerifyResult) (req : Request)
    (hx : isExempt req.path = false)
    (hbad : req.authorization = none ∨
      ∃ a, req.authorization = some a ∧ authHeaderOk a = false) :
    (∃ d, (dispatch verify req).2 = MwResponse.jsonResponse 401 d) ∧
    MwEvent.callNext ∉ (dispatch verify req).1 ∧
    ∀ tok, MwEvent.verifyIdToken tok ∉ (dispatch verify req).1 := by
  rcases hbad with h | ⟨a, ha, hmal⟩
  · simp [dispatch, hx, h]
  · by_cases hae : a = ""
    · subst hae
      simp [dispatch, hx, ha]
    · simp [dispatch, hx, ha, hae, hmal]

/-- Witness for C5: a single-token header (no scheme) on a non-exempt path. -/
theorem C5_malformed_auth_rejected_witness :
    (∃ d, (dispatch (fun _ => VerifyResult.ok
        { firebaseTenant := some "t1", uid := some "u1", email := none })
        { path := "/api/items", authorization := some "malformed" }).2 =
      MwResponse.jsonResponse 401 d) ∧
    MwEvent.callNext ∉ (dispatch (fun _ => VerifyResult.ok
        { firebaseTenant := some "t1", uid := some "u1", email := none })
        { path := "/api/items", authorization := some "malformed" }).1 ∧
    ∀ tok, MwEvent.verifyIdToken tok ∉ (dispatch (fun _ => VerifyResult.ok
        { firebaseTenant := some "t1", uid := some "u1", email := none })
        { path := "/api/items", authorization := some "malformed" }).1 :=
  C5_malformed_auth_rejected _ _ (by decide)
    (Or.inr ⟨"malformed", rfl, by decide⟩)

/-- Claim C6: for every request to a non-exempt path whose well-formed
bearer token verifies successfully but whose decoded claims carry no tenant
id under `firebase.tenant`, the middleware responds 403 — not 401 — and the
downstream handler is never invoked. -/
theorem C6_missing_tenant_forbidden (verify : String → VerifyResult)
    (req : Request) (a : String) (d : DecodedToken)
    (hx : isExempt req.path = false)
    (ha : req.authorization = some a) (hane : a ≠ "")
    (hform : authHeaderOk a = true)
    (hv : verify (tokenOf a) = VerifyResult.ok d)
    (hnt : d.firebaseTenant = none) :
    (dispatch verify req).2 =
      MwResponse.jsonResponse 403 "Token no asociado a un tenant" ∧
    (∀ d401, (dispatch verify req).2 ≠ MwResponse.jsonResponse 401 d401) ∧
    MwEvent.callNext ∉ (dispatch verify req).1 := by
  refine ⟨?_, ?_, ?_⟩ <;>
    simp [dispatch, hx, ha, hane, hform, hv, hnt]

/-- Witness for C6: a verifying token with no tenant claim. -/
theorem C6_missing_tenant_forbidden_witness :
    (dispatch (fun _ => VerifyResult.ok
        { firebaseTenant := none, uid := some "u1", email := some "a@b.co" })
        { path := "/api/items", authorization := some "Bearer goodtoken" }).2 =
      MwResponse.jsonResponse 403 "Token no asociado a un tenant" :=
  (C6_missing_tenant_forbidden _
    { path := "/api/items", authorization := some "Bearer goodtoken" }
    "Bearer goodtoken"
    { firebaseTenant := none, uid := some "u1", email := some "a@b.co" }
    (by decide) rfl (by decide) (by decide) rfl rfl).1

/-- No `auth.delete_tenant` call can appear inside the step-2 session's
trace: its events are session machinery plus the `add`/`flush` pair. -/
theorem step2_no_idpDeleteTenant (env : OnbEnv) (tid t' : String) :
    OEv.idpDeleteTenant t' ∉ (step2SessionOf env tid).1 := by
  intro hx
  rcases get_session_trace_mem _ _ _ _ _ _ hx with ⟨d, hd⟩ | hb <;> simp_all

/-- No `auth.delete_tenant` call can appear inside the compensation
session's trace: its events are session machinery plus the `select` and the
row `delete`. -/
theorem comp_no_idpDeleteTenant (env : OnbEnv) (tid t' : String) :
    OEv.idpDeleteTenant t' ∉ (compSessionOf env tid).1 := by
  intro hx
  rcases get_session_trace_mem _ _ _ _ _ _ hx with ⟨d, hd⟩ | hb
  · simp at hd
  · rcases env with ⟨ct, s2, ie, cu, cdb, cse, cf, cde, dte⟩
    rcases cse with _ | se <;> rcases cf <;> rcases cde with _ | de <;>
      simp_all [compBodyOf]

/-- Claim C7: when the step-2 row insertion fails after the external tenant
was created (with a non-empty tenant id), the caller receives the step-2
HTTP 500 failure with the database error message, and `auth.delete_tenant`
appears exactly once in the whole run's trace — the compensation is
attempted exactly once, regardless of the delete's own outcome
(`env.deleteTenantExc` is unconstrained), and no further deletion happens on
this path. -/
theorem C7_step2_failure_compensation (env : OnbEnv) (req : OnboardingRequest)
    (tid : String) (e : Exc)
    (hct : env.createTenantRes = Outcome.ok tid) (htid : tid ≠ "")
    (hs2 : (step2SessionOf env tid).2 = Outcome.err e) :
    (register_company env req).2 =
      OnbResult.httpError 500 ("Error al crear empresa en base de datos: " ++ e.message) ∧
    (register_company env req).1.count (OEv.idpDeleteTenant tid) = 1 := by
  have htrace : register_company env req =
      ([OEv.idpCreateTenant (displayNameOf req)] ++ (step2SessionOf env tid).1 ++
        [OEv.idpDeleteTenant tid],
       OnbResult.httpError 500
         ("Error al crear empresa en base de datos: " ++ e.message)) := by
    simp [register_company, hct, hs2, htid]
  refine ⟨by rw [htrace], ?_⟩
  rw [htrace]
  have h0 : (step2SessionOf env tid).1.count (OEv.idpDeleteTenant tid) = 0 :=
    List.count_eq_zero.2 (step2_no_idpDeleteTenant env tid tid)
  simp [List.count_append, h0]

/-- Witness for C7: a run whose step-2 insert raises and whose compensating
tenant delete itself also raises. -/
theorem C7_step2_failure_compensation_witness :
    (register_company
      { createTenantRes := Outcome.ok "tenant-123", step2Db := DbEnv.allOk,
        insertExc := some (Exc.external "insert boom"),
        createUserRes := Outcome.ok "u1", compDb := DbEnv.allOk,
        compSelectExc := none, compFound := true, compDeleteExc := none,
        deleteTenantExc := some (Exc.external "delete boom") } sampleReq).2 =
      OnbResult.httpError 500
        "Error al crear empresa en base de datos: insert boom" ∧
    (register_company
      { createTenantRes := Outcome.ok "tenant-123", step2Db := DbEnv.allOk,
        insertExc := some (Exc.external "insert boom"),
        createUserRes := Outcome.ok "u1", compDb := DbEnv.allOk,
        compSelectExc := none, compFound := true, compDeleteExc := none,
        deleteTenantExc := some (Exc.external "delete boom") } sampleReq).1.count
      (OEv.idpDeleteTenant "tenant-123") = 1 :=
  C7_step2_failure_compensation
    { createTenantRes := Outcome.ok "tenant-123", step2Db := DbEnv.allOk,
      insertExc := some (Exc.external "insert boom"),
      createUserRes := Outcome.ok "u1", compDb := DbEnv.allOk,
      compSelectExc := none, compFound := true, compDeleteExc := none,
      deleteTenantExc := some (Exc.external "delete boom") } sampleReq
    "tenant-123" (Exc.external "insert boom") rfl (by decide) (by decide)

/-- Claim C8: when all three collaborator steps succeed, `register_company`
returns the success payload served with status 201, whose `company_id`
equals `tenant_id` — the externally assigned tenant id, not a locally
generated key — and whose `admin_user_id` is the (non-empty) uid returned
by the identity provider. -/
theorem C8_success_response (env : OnbEnv) (req : OnboardingRequest)
    (tid cid uid : String)
    (hct : env.createTenantRes = Outcome.ok tid)
    (hs2 : (step2SessionOf env tid).2 = Outcome.ok cid)
    (hcu : env.createUserRes = Outcome.ok uid) (huid : uid ≠ "") :
    ∃ resp, (register_company env req).2 = OnbResult.success resp ∧
      ((register_company env req).2).statusCode = 201 ∧
      resp.tenant_id = tid ∧ resp.company_id = resp.tenant_id ∧
      resp.admin_user_id = uid ∧ resp.admin_user_id ≠ "" := by
  have hcid : step2BodyRes env tid = Outcome.ok cid :=
    get_session_ok _ _ _ _ _ _ hs2
  have hc : cid = tid := by
    unfold step2BodyRes at hcid
    rcases h : env.insertExc with _ | e₀ <;> rw [h] at hcid
    · cases hcid; rfl
    · cases hcid
  refine ⟨{ tenant_id := tid, company_id := tid, admin_user_id := uid,
            message := "Empresa y usuario administrador creados exitosamente" },
    ?_, ?_, rfl, rfl, rfl, huid⟩
  · simp [register_company, hct, hs2, hcu, hc]
  · simp [register_company, hct, hs2, hcu, hc, OnbResult.statusCode]

/-- Witness for C8 at a concrete all-success run. -/
theorem C8_success_response_witness :
    ∃ resp,
      (register_company
        { createTenantRes := Outcome.ok "tenant-123", step2Db := DbEnv.allOk,
          insertExc := none, createUserRes := Outcome.ok "uid-9",
          compDb := DbEnv.allOk, compSelectExc := none, compFound := true,
          compDeleteExc := none, deleteTenantExc := none } sampleReq).2 =
        OnbResult.success resp ∧
      ((register_company
        { createTenantRes := Outcome.ok "tenant-123", step2Db := DbEnv.allOk,
          insertExc := none, createUserRes := Outcome.ok "uid-9",
          compDb := DbEnv.allOk, compSelectExc := none, compFound := true,
          compDeleteExc := none, deleteTenantExc := none } sampleReq).2).statusCode = 201 ∧
      resp.tenant_id = "tenant-123" ∧ resp.company_id = resp.tenant_id ∧
      resp.admin_user_id = "uid-9" ∧ resp.admin_user_id ≠ "" :=
  C8_success_response
    { createTenantRes := Outcome.ok "tenant-123", step2Db := DbEnv.allOk,
      insertExc := none, createUserRes := Outcome.ok "uid-9",
      compDb := DbEnv.allOk, compSelectExc := none, compFound := true,
      compDeleteExc := none, deleteTenantExc := none } sampleReq
    "tenant-123" "tenant-123" "uid-9" rfl (by decide) rfl (by decide)

/-- Counterexample to claim C1: a run in which admin-user creation fails and
the compensation's row deletion raises.  The row deletion was attempted
(`dbDeleteRow` is in the trace) and raised, the step-3 failure is still what
the caller receives — but `auth.delete_tenant` is never called, because both
compensating steps live inside one `try` block and the row-deletion failure
jumps straight to the `except` handler.  The claim's assertion that the
external-tenant deletion is attempted even when the row deletion raises is
therefore false. -/
theorem C1_counterexample :
    OEv.dbDeleteRow "tenant-123" ∈
      (register_company
        { createTenantRes := Outcome.ok "tenant-123", step2Db := DbEnv.allOk,
          insertExc := none, createUserRes := Outcome.err (Exc.external "user boom"),
          compDb := DbEnv.allOk, compSelectExc := none, compFound := true,
          compDeleteExc := some (Exc.external "row delete boom"),
          deleteTenantExc := none } sampleReq).1 ∧
    (register_company
        { createTenantRes := Outcome.ok "tenant-123", step2Db := DbEnv.allOk,
          insertExc := none, createUserRes := Outcome.err (Exc.external "user boom"),
          compDb := DbEnv.allOk, compSelectExc := none, compFound := true,
          compDeleteExc := some (Exc.external "row delete boom"),
          deleteTenantExc := none } sampleReq).1.count
      (OEv.idpDeleteTenant "tenant-123") = 0 ∧
    (register_company
        { createTenantRes := Outcome.ok "tenant-123", step2Db := DbEnv.allOk,
          insertExc := none, createUserRes := Outcome.err (Exc.external "user boom"),
          compDb := DbEnv.allOk, compSelectExc := none, compFound := true,
          compDeleteExc := some (Exc.external "row delete boom"),
          deleteTenantExc := none } sampleReq).2 =
      OnbResult.httpError 500 "Error al crear usuario administrador: user boom" := by
  decide

/-- Claim C1 as amended: when admin-user creation (step 3) fails after the
tenant and row were created, the compensation runs the row-deletion session
first and then the external-tenant deletion, in that order, and the
original step-3 failure is what the caller receives with every compensation
failure swallowed — but the external-tenant deletion is attempted only when
the row-deletion session completes without raising; if the row deletion
raises, the tenant deletion is skipped (both compensating steps share a
single `try` block). -/
theorem C1_step3_failure_compensation (env : OnbEnv) (req : OnboardingRequest)
    (tid cid : String) (e : Exc)
    (hct : env.createTenantRes = Outcome.ok tid) (htid : tid ≠ "")
    (hs2 : (step2SessionOf env tid).2 = Outcome.ok cid)
    (hcu : env.createUserRes = Outcome.err e) :
    (register_company env req).2 =
      OnbResult.httpError 500
        ("Error al crear usuario administrador: " ++ e.message) ∧
    (∀ u, (compSessionOf env tid).2 = Outcome.ok u →
      (register_company env req).1 =
        [OEv.idpCreateTenant (displayNameOf req)] ++ (step2SessionOf env tid).1 ++
          [OEv.idpCreateUser req.admin_user.email tid] ++ (compSessionOf env tid).1 ++
          [OEv.idpDeleteTenant tid]) ∧
    (∀ e2, (compSessionOf env tid).2 = Outcome.err e2 →
      (register_company env req).1 =
        [OEv.idpCreateTenant (displayNameOf req)] ++ (step2SessionOf env tid).1 ++
          [OEv.idpCreateUser req.admin_user.email tid] ++ (compSessionOf env tid).1 ∧
      OEv.idpDeleteTenant tid ∉ (register_company env req).1) := by
  refine ⟨?_, ?_, ?_⟩
  · rcases hcs : (compSessionOf env tid).2 with u | e2 <;>
      simp [register_company, hct, hs2, hcu, htid, hcs]
  · intro u hcs
    simp [register_company, hct, hs2, hcu, htid, hcs]
  · intro e2 hcs
    have htr : (register_company env req).1 =
        [OEv.idpCreateTenant (displayNameOf req)] ++ (step2SessionOf env tid).1 ++
          [OEv.idpCreateUser req.admin_user.email tid] ++ (compSessionOf env tid).1 := by
      simp [register_company, hct, hs2, hcu, htid, hcs]
    refine ⟨htr, ?_⟩
    rw [htr]
    intro hmem
    rcases List.mem_append.1 hmem with hmem' | hcomp
    · rcases List.mem_append.1 hmem' with hmem'' | hcu3
      · rcases List.mem_append.1 hmem'' with hone | hs2m
        · simp at hone
        · exact step2_no_idpDeleteTenant env tid tid hs2m
      · simp at hcu3
    · exact comp_no_idpDeleteTenant env tid tid hcomp

/-- Witness for the amended C1: a run whose compensation succeeds end to
end shows the row-then-tenant order, and the step-3 failure is returned. -/
theorem C1_step3_failure_compensation_witness :
    (register_company
      { createTenantRes := Outcome.ok "tenant-123", step2Db := DbEnv.allOk,
        insertExc := none, createUserRes := Outcome.err (Exc.external "user boom"),
        compDb := DbEnv.allOk, compSelectExc := none, compFound := true,
        compDeleteExc := none, deleteTenantExc := none } sampleReq).2 =
      OnbResult.httpError 500 "Error al crear usuario administrador: user boom" ∧
    (register_company
      { createTenantRes := Outcome.ok "tenant-123", step2Db := DbEnv.allOk,
        insertExc := none, createUserRes := Outcome.err (Exc.external "user boom"),
        compDb := DbEnv.allOk, compSelectExc := none, compFound := true,
        compDeleteExc := none, deleteTenantExc := none } sampleReq).1 =
      [OEv.idpCreateTenant (displayNameOf sampleReq)] ++
        (step2SessionOf
          { createTenantRes := Outcome.ok "tenant-123", step2Db := DbEnv.allOk,
            insertExc := none, createUserRes := Outcome.err (Exc.external "user boom"),
            compDb := DbEnv.allOk, compSelectExc := none, compFound := true,
            compDeleteExc := none, deleteTenantExc := none } "tenant-123").1 ++
        [OEv.idpCreateUser sampleReq.admin_user.email "tenant-123"] ++
        (compSessionOf
          { createTenantRes := Outcome.ok "tenant-123", step2Db := DbEnv.allOk,
            insertExc := none, createUserRes := Outcome.err (Exc.external "user boom"),
            compDb := DbEnv.allOk, compSelectExc := none, compFound := true,
            compDeleteExc := none, deleteTenantExc := none } "tenant-123").1 ++
        [OEv.idpDeleteTenant "tenant-123"] :=
  ⟨(C1_step3_failure_compensation
      { createTenantRes := Outcome.ok "tenant-123", step2Db := DbEnv.allOk,
        insertExc := none, createUserRes := Outcome.err (Exc.external "user boom"),
        compDb := DbEnv.allOk, compSelectExc := none, compFound := true,
        compDeleteExc := none, deleteTenantExc := none } sampleReq
      "tenant-123" "tenant-123" (Exc.external "user boom")
      rfl (by decide) (by decide) rfl).1,
   (C1_step3_failure_compensation
      { createTenantRes := Outcome.ok "tenant-123", step2Db := DbEnv.allOk,
        insertExc := none, createUserRes := Outcome.err (Exc.external "user boom"),
        compDb := DbEnv.allOk, compSelectExc := none, compFound := true,
        compDeleteExc := none, deleteTenantExc := none } sampleReq
      "tenant-123" "tenant-123" (Exc.external "user boom")
      rfl (by decide) (by decide) rfl).2.1 () (by decide)⟩

/-- Counterexample to claim C9: two onboarding runs that fail at step 1 with
different internal exception messages both map to status 500 but produce
different client-visible `detail` strings — the onboarding error branches
echo `str(e)` to the caller, so the 500 response body is not a fixed generic
message. -/
theorem C9_counterexample :
    ((register_company
      { createTenantRes := Outcome.err (Exc.external "idp quota exceeded"),
        step2Db := DbEnv.allOk, insertExc := none, createUserRes := Outcome.ok "u1",
        compDb := DbEnv.allOk, compSelectExc := none, compFound := true,
        compDeleteExc := none, deleteTenantExc := none } sampleReq).2).statusCode = 500 ∧
    ((register_company
      { createTenantRes := Outcome.err (Exc.external "idp socket timeout"),
        step2Db := DbEnv.allOk, insertExc := none, createUserRes := Outcome.ok "u1",
        compDb := DbEnv.allOk, compSelectExc := none, compFound := true,
        compDeleteExc := none, deleteTenantExc := none } sampleReq).2).statusCode = 500 ∧
    ((register_company
      { createTenantRes := Outcome.err (Exc.external "idp quota exceeded"),
        step2Db := DbEnv.allOk, insertExc := none, createUserRes := Outcome.ok "u1",
        compDb := DbEnv.allOk, compSelectExc := none, compFound := true,
        compDeleteExc := none, deleteTenantExc := none } sampleReq).2).detail ≠
    ((register_company
      { createTenantRes := Outcome.err (Exc.external "idp socket timeout"),
        step2Db := DbEnv.allOk, insertExc := none, createUserRes := Outcome.ok "u1",
        compDb := DbEnv.allOk, compSelectExc := none, compFound := true,
        compDeleteExc := none, deleteTenantExc := none } sampleReq).2).detail := by
  decide

/-- Claim C9 as amended: the authenticator's verifier-failure branch does
return a fixed generic 500 detail, independent of the underlying exception —
two runs differing only in the internal error message produce identical
responses there — but the onboarding endpoint's per-step error branches echo
the underlying exception's message in the client-visible detail (step 1
shown here; steps 2 and 3 behave alike), so the fixed-generic-message
property does not extend to them. -/
theorem C9_generic_detail_scope :
    (∀ (m₁ m₂ : String) (verify₁ verify₂ : String → VerifyResult)
        (req : Request) (a : String),
      isExempt req.path = false → req.authorization = some a → a ≠ "" →
      authHeaderOk a = true →
      verify₁ (tokenOf a) = VerifyResult.otherFailure m₁ →
      verify₂ (tokenOf a) = VerifyResult.otherFailure m₂ →
      (dispatch verify₁ req).2 =
        MwResponse.jsonResponse 500 "Error interno al verificar autenticación" ∧
      (dispatch verify₁ req).2 = (dispatch verify₂ req).2) ∧
    (∀ (env : OnbEnv) (req : OnboardingRequest) (e : Exc),
      env.createTenantRes = Outcome.err e →
      (register_company env req).2 =
        OnbResult.httpError 500
          ("Error al crear tenant en Identity Platform: " ++ e.message)) := by
  constructor
  · intro m₁ m₂ verify₁ verify₂ req a hx ha hane hform hv₁ hv₂
    constructor
    · simp [dispatch, hx, ha, hane, hform, hv₁]
    · simp [dispatch, hx, ha, hane, hform, hv₁, hv₂]
  · intro env req e hct
    simp [register_company, hct]

/-- Witness for the amended C9 at concrete verifiers and a concrete step-1
failure. -/
theorem C9_generic_detail_scope_witness :
    ((dispatch (fun _ => VerifyResult.otherFailure "redis down")
        { path := "/api/items", authorization := some "Bearer tok" }).2 =
      MwResponse.jsonResponse 500 "Error interno al verificar autenticación" ∧
    (dispatch (fun _ => VerifyResult.otherFailure "redis down")
        { path := "/api/items", authorization := some "Bearer tok" }).2 =
      (dispatch (fun _ => VerifyResult.otherFailure "disk full")
        { path := "/api/items", authorization := some "Bearer tok" }).2) ∧
    (register_company
      { createTenantRes := Outcome.err (Exc.external "idp down"),
        step2Db := DbEnv.allOk, insertExc := none, createUserRes := Outcome.ok "u1",
        compDb := DbEnv.allOk, compSelectExc := none, compFound := true,
        compDeleteExc := none, deleteTenantExc := none } sampleReq).2 =
      OnbResult.httpError 500 "Error al crear tenant en Identity Platform: idp down" :=
  ⟨C9_generic_detail_scope.1 "redis down" "disk full"
      (fun _ => VerifyResult.otherFailure "redis down")
      (fun _ => VerifyResult.otherFailure "disk full")
      { path := "/api/items", authorization := some "Bearer tok" } "Bearer tok"
      (by decide) rfl (by decide) (by decide) rfl rfl,
   C9_generic_detail_scope.2
      { createTenantRes := Outcome.err (Exc.external "idp down"),
        step2Db := DbEnv.allOk, insertExc := none, createUserRes := Outcome.ok "u1",
        compDb := DbEnv.allOk, compSelectExc := none, compFound := true,
        compDeleteExc := none, deleteTenantExc := none } sampleReq
      (Exc.external "idp down") rfl⟩
